import Mathlib

/-!
Shallow embedding of the payment-confirmation subsystem of the `nyota`
repository (`src/routes.py`, `src/models/nyota.py`): the Purchase ledger,
the SSE notification bridge (`SseManager`), the UZA webhook callback
(`uza_payment_callback`), payment initiation (`initiate_payment`) and retry
(`retry_payment`), and the content gate (`serve_content`,
`check_subscription_status`).

Modelling conventions:
* SQLAlchemy rows become Lean structures; the database session becomes an
  explicit `Db` value threaded through each handler, and `db.session.commit`
  is all-or-nothing: a handler that can hit a commit failure takes a
  `commitOk : Bool` oracle, and on `false` the pre-state is returned
  (mirroring `db.session.rollback()`).
* Outbound HTTP calls to the UZA gateway are represented by an oracle
  argument holding the part of the response the code inspects (the
  `deal_id` for `initiate_payment`, a success bit for `retry_payment`);
  the outbound request payload itself is not modelled since the handlers
  never read it back.
* `datetime.utcnow()` is a `now : Nat` parameter (seconds since epoch);
  `timedelta(days := n)` is `n * 86400` seconds.
* Python truthiness of strings/ints coming from JSON is modelled on
  `Option String` / `Option Nat`: `none`, `some ""` and `some 0` are falsy.
* Decimal amounts are modelled as integers (minor units); the
  string-to-Decimal parsing of a tier price is abstracted to
  `Option Int` (`none` = absent or unparsable, in which case the code
  falls back to the asset price).
* A dangling foreign key (a purchase or file whose asset/creator row is
  missing) would crash the Python handler outside any try block; handlers
  where that can happen return `Option _`, with `none` for that unmodelled
  crash. Inside `uza_payment_callback`'s try block the same situation is
  caught and mapped to a 500 rollback, which is modelled directly.
-/

namespace Nyota

/-- The `PurchaseStatus` enum from `src/models/nyota.py`. -/
inductive PurchaseStatus where
  | pending
  | completed
  | failed
deriving DecidableEq, Repr

/-- The `SubscriptionInterval` enum from `src/models/nyota.py`. -/
inductive SubscriptionInterval where
  | weekly
  | monthly
  | quarterly
  | yearly
deriving DecidableEq, Repr

/-- Python `Enum.name` of a `SubscriptionInterval` member. -/
def SubscriptionInterval.pyName : SubscriptionInterval → String
  | .weekly => "WEEKLY"
  | .monthly => "MONTHLY"
  | .quarterly => "QUARTERLY"
  | .yearly => "YEARLY"

/-- A pricing tier as found in the request JSON / stored in
`Purchase.ticket_data['tier']`. Only the fields the subsystem reads are
kept: `price` (already parsed, `none` when absent or unparsable) and
`interval` (the tier-level subscription-interval override). -/
structure Tier where
  price : Option Int
  interval : Option String
deriving DecidableEq, Repr

/-- A `Purchase` row (`src/models/nyota.py`). `tierData` is
`ticket_data['tier']` (the only key ever written into `ticket_data` by
`initiate_payment`); `none` models a NULL `ticket_data`. -/
structure Purchase where
  id : Nat
  customerId : Nat
  assetId : Nat
  amountPaid : Int
  purchaseDate : Nat
  status : PurchaseStatus
  paymentGatewayRef : Option String
  sseChannelId : Option String
  tierData : Option Tier
deriving DecidableEq, Repr

/-- A `DigitalAsset` row, restricted to the columns the payment/content
subsystem reads. `totalSales`/`totalRevenue` are nullable columns, read
through `(x or 0)` in the code. -/
structure DigitalAsset where
  id : Nat
  creatorId : Nat
  slug : String
  price : Int
  isSubscription : Bool
  subscriptionInterval : Option SubscriptionInterval
  totalSales : Option Int
  totalRevenue : Option Int
deriving DecidableEq, Repr

/-- A `Customer` row. -/
structure Customer where
  id : Nat
  whatsappNumber : String
deriving DecidableEq, Repr

/-- An `AssetFile` row. -/
structure AssetFile where
  id : Nat
  assetId : Nat
  storagePath : String
deriving DecidableEq, Repr

/-- A `Creator` row together with the two `CreatorSetting` values the
subsystem reads (`payment_uza_pk`, `payment_uza_secret`); `none` models a
missing setting row, `some ""` an empty stored value (both falsy). -/
structure CreatorRec where
  id : Nat
  uzaPk : Option String
  uzaSecret : Option String
deriving DecidableEq, Repr

/-- The relational state. Lists are in table order (`query.first()` takes
the head of the matching sublist); `nextPurchaseId`/`nextCustomerId` model
autoincrement primary keys. -/
structure Db where
  purchases : List Purchase
  assets : List DigitalAsset
  customers : List Customer
  files : List AssetFile
  creators : List CreatorRec
  nextPurchaseId : Nat
  nextCustomerId : Nat
deriving DecidableEq, Repr

/-- Flask session keys the subsystem touches: `customer_phone`,
`is_verified`, `creator_id`. -/
structure Session where
  customerPhone : Option String
  isVerified : Bool
  creatorId : Option Nat
deriving DecidableEq, Repr

/-- Python `str.lower()` (ASCII case folding), modelled over the
character list. -/
def pyLower (s : String) : String := ⟨s.data.map Char.toLower⟩

/-- Python `str.strip()` (leading/trailing whitespace removal), modelled
over the character list. -/
def pyStrip (s : String) : String :=
  ⟨((s.data.dropWhile Char.isWhitespace).reverse.dropWhile
      Char.isWhitespace).reverse⟩

/-- Python truthiness of an optional string. -/
def truthyStr : Option String → Bool
  | none => false
  | some s => s != ""

/-- Python truthiness of an optional integer. -/
def truthyNat : Option Nat → Bool
  | none => false
  | some n => n != 0

/-! ### Notification bridge (`SseManager`, routes.py lines 1037-1084) -/

/-- The JSON object published on an SSE channel (the code serializes it as
`data: {json}\n\n`; serialization is kept abstract, the event value itself
is queued). -/
structure SseEvent where
  status : String
  message : String
  redirectUrl : Option String
deriving DecidableEq, Repr

/-- The `queue.Queue(10)` bound used by `SseManager.subscribe`. -/
def sseQueueCapacity : Nat := 10

/-- The in-process channel registry: `channel_id -> bounded queue`.
Keys are unique (a Python dict); the queue is a FIFO list. -/
structure SseManager where
  channels : List (String × List SseEvent)
deriving DecidableEq, Repr

/-- Dict lookup `self.channels[channel_id]`. -/
def SseManager.lookup (m : SseManager) (channelId : String) :
    Option (List SseEvent) :=
  (m.channels.find? (fun e => e.1 == channelId)).map (fun e => e.2)

/-- Method `SseManager.subscribe`: reuse the existing queue, else create an empty
bounded queue and register it. Returns the queue and the new registry. -/
def SseManager.subscribe (m : SseManager) (channelId : String) :
    List SseEvent × SseManager :=
  match m.lookup channelId with
  | some q => (q, m)
  | none => ([], ⟨m.channels ++ [(channelId, [])]⟩)

/-- Method `SseManager.cleanup_channel`: `self.channels.pop(channel_id, None)`
(keys are unique, so removing every pair with the key is the dict pop). -/
def SseManager.cleanup_channel (m : SseManager) (channelId : String) :
    SseManager :=
  ⟨m.channels.filter (fun e => e.1 != channelId)⟩

/-- Method `SseManager.publish`: no-op on an unknown channel; `put_nowait` on the
queue, dropping the message when the queue is full (`queue.Full`). -/
def SseManager.publish (m : SseManager) (channelId : String)
    (data : SseEvent) : SseManager :=
  match m.lookup channelId with
  | none => m
  | some q =>
    if q.length < sseQueueCapacity then
      ⟨m.channels.map (fun e =>
        if e.1 == channelId then (e.1, e.2 ++ [data]) else e)⟩
    else m

/-! ### Subscription expiry (`check_subscription_status`, routes.py 517-543)
and the content gate (`serve_content`, routes.py 469-513). -/

def daySeconds : Nat := 86400

/-- Function `check_subscription_status(purchase)`; the `purchase.asset`
relationship is passed explicitly. Returns `(is_active, expiry_date)`. -/
def check_subscription_status (asset : DigitalAsset) (purchase : Purchase)
    (now : Nat) : Bool × Option Nat :=
  if !asset.isSubscription then (true, none)
  else
    let interval :=
      match asset.subscriptionInterval with
      | some iv => pyLower iv.pyName
      | none => "monthly"
    let interval :=
      match purchase.tierData with
      | some t => pyLower (t.interval.getD interval)
      | none => interval
    let delta :=
      if interval == "weekly" then 7 * daySeconds
      else if interval == "quarterly" then 90 * daySeconds
      else if interval == "yearly" then 365 * daySeconds
      else 30 * daySeconds
    let expiryDate := purchase.purchaseDate + delta
    (decide (now < expiryDate), some expiryDate)

/-- Outcome of `serve_content`: `abort(403)`, `get_or_404`, the
expired-subscription flash+redirect to the asset page, serving the file
from `secure_uploads`, or redirecting to an external link. -/
inductive ServeResult where
  | forbidden
  | notFound
  | renew (slug : String) (expiry : Nat)
  | served (filename : String)
  | redirectExternal (url : String)
deriving DecidableEq, Repr

/-- Query `Purchase.query.filter_by(customer_id, asset_id, status=COMPLETED)
.order_by(Purchase.purchase_date.desc()).first()`. -/
def latestCompletedPurchase (db : Db) (customerId assetId : Nat) :
    Option Purchase :=
  (db.purchases.filter (fun p =>
      p.customerId == customerId && p.assetId == assetId &&
      p.status == PurchaseStatus.completed)).foldl
    (fun acc p =>
      match acc with
      | none => some p
      | some q => if p.purchaseDate > q.purchaseDate then some p else some q)
    none

/-- Python `str.startswith(pre)`, over the character list. -/
def pyStartsWith (s pre : String) : Bool :=
  s.data.take pre.data.length == pre.data

/-- Left-to-right non-overlapping removal of every occurrence of `pat`
(Python `str.replace(pat, '')` with a non-empty pattern); `fuel` bounds
the recursion and is instantiated with the string length. -/
def pyReplaceFuel (pat : List Char) : Nat → List Char → List Char
  | 0, l => l
  | _, [] => []
  | fuel + 1, c :: rest =>
    if (c :: rest).take pat.length == pat then
      pyReplaceFuel pat fuel ((c :: rest).drop pat.length)
    else c :: pyReplaceFuel pat fuel rest

/-- Python `s.replace(pat, '')`. -/
def pyReplaceEmpty (s pat : String) : String :=
  ⟨pyReplaceFuel pat.data s.data.length s.data⟩

/-- The session-creator test of `serve_content` (routes.py 492-493):
`creator_id and asset.creator_id == creator_id` under Python truthiness
(`creator_id = 0` is falsy). -/
def sessionIsCreator (sess : Session) (asset : DigitalAsset) : Bool :=
  match sess.creatorId with
  | some cid => cid != 0 && asset.creatorId == cid
  | none => false

/-- The final serve step of `serve_content` (routes.py 505-513): files
under `secure_uploads/` are sent from disk, anything else is an external
redirect. -/
def serveFileOutcome (assetFile : AssetFile) : ServeResult :=
  if pyStartsWith assetFile.storagePath "secure_uploads/" then
    .served (pyReplaceEmpty assetFile.storagePath "secure_uploads/")
  else
    .redirectExternal assetFile.storagePath

/-- Handler `serve_content(file_id)` (routes.py 469-513). Returns `none` only when
`asset_file.asset` dangles (which would crash the Python handler). -/
def serve_content (db : Db) (sess : Session) (now : Nat) (fileId : Nat) :
    Option ServeResult :=
  match sess.customerPhone with
  | none => some .forbidden
  | some customerPhone =>
    if customerPhone == "" || !sess.isVerified then some .forbidden
    else
      match db.files.find? (fun f => f.id == fileId) with
      | none => some .notFound
      | some assetFile =>
        match db.customers.find? (fun c =>
            c.whatsappNumber == customerPhone) with
        | none => some .forbidden
        | some customer =>
          let purchase :=
            latestCompletedPurchase db customer.id assetFile.assetId
          match db.assets.find? (fun a => a.id == assetFile.assetId) with
          | none => none
          | some asset =>
            let isCreator := sessionIsCreator sess asset
            if purchase.isNone && !isCreator then some .forbidden
            else
              match purchase with
              | some p =>
                if asset.isSubscription then
                  let st := check_subscription_status asset p now
                  if st.1 then some (serveFileOutcome assetFile)
                  else some (.renew asset.slug (st.2.getD 0))
                else some (serveFileOutcome assetFile)
              | none => some (serveFileOutcome assetFile)

/-! ### Webhook callback (`uza_payment_callback`, routes.py 1667-1749) -/

/-- The parsed body `data['data']`; present only when the JSON body is
truthy and has a `'data'` key. -/
structure CallbackPayload where
  dealId : Option String
deriving DecidableEq, Repr

/-- Inbound webhook request: the `secret` query parameter and the parsed
body (`none` = missing/empty body or no `'data'` key). -/
structure WebhookReq where
  secretParam : Option String
  payload : Option CallbackPayload
deriving DecidableEq, Repr

/-- Webhook response + post-state. `published` records each
`sse_manager.publish` invocation made by the handler (channel and event),
whether or not the bridge delivered it. -/
structure WebhookResult where
  httpStatus : Nat
  db : Db
  sse : SseManager
  published : List (String × SseEvent)
deriving DecidableEq, Repr

/-- The URL `url_for('main.finalize_session', purchase_id=...)`. -/
def finalizeSessionUrl (purchaseId : Nat) : String :=
  "/auth/finalize-session/" ++ toString purchaseId

/-- The event published on payment success (routes.py 1735-1739). -/
def successEvent (purchaseId : Nat) : SseEvent :=
  { status := "SUCCESS"
    message := "Payment confirmed! Accessing your content..."
    redirectUrl := some (finalizeSessionUrl purchaseId) }

/-- Step 0 of the webhook: secret verification against
`Creator.query.first()`'s `payment_uza_secret` setting (routes.py
1675-1690). `true` = reject with 403. -/
def secretRejected (db : Db) (req : WebhookReq) : Bool :=
  match db.creators.head? with
  | none => false
  | some creator =>
    match creator.uzaSecret with
    | none => false
    | some expected =>
      if expected == "" then false
      else
        match req.secretParam with
        | none => true
        | some incoming => incoming == "" || incoming != expected

/-- Handler `uza_payment_callback` (routes.py 1667-1749). `commitOk` is the
outcome of `db.session.commit()` in step 5; on failure the session is
rolled back and 500 returned. A purchase whose asset row is missing
raises inside the same try block and is likewise rolled back to 500. -/
def uza_payment_callback (req : WebhookReq) (db : Db) (sse : SseManager)
    (commitOk : Bool) : WebhookResult :=
  if secretRejected db req then
    { httpStatus := 403, db := db, sse := sse, published := [] }
  else
    match req.payload with
    | none => { httpStatus := 400, db := db, sse := sse, published := [] }
    | some payload =>
      match payload.dealId with
      | none => { httpStatus := 400, db := db, sse := sse, published := [] }
      | some dealId =>
        if dealId == "" then
          { httpStatus := 400, db := db, sse := sse, published := [] }
        else
          match db.purchases.find? (fun p =>
              p.paymentGatewayRef == some dealId) with
          | none =>
            { httpStatus := 404, db := db, sse := sse, published := [] }
          | some purchase =>
            if purchase.status == PurchaseStatus.completed then
              { httpStatus := 200, db := db, sse := sse, published := [] }
            else
              match db.assets.find? (fun a => a.id == purchase.assetId) with
              | none =>
                { httpStatus := 500, db := db, sse := sse, published := [] }
              | some asset =>
                if !commitOk then
                  { httpStatus := 500, db := db, sse := sse,
                    published := [] }
                else
                  let db1 : Db :=
                    { db with
                      purchases := db.purchases.map (fun p =>
                        if p.id == purchase.id then
                          { p with status := PurchaseStatus.completed }
                        else p)
                      assets := db.assets.map (fun a =>
                        if a.id == asset.id then
                          { a with
                            totalSales := some (a.totalSales.getD 0 + 1)
                            totalRevenue := some (a.totalRevenue.getD 0 +
                              purchase.amountPaid) }
                        else a) }
                  match purchase.sseChannelId with
                  | some channelId =>
                    let ev := successEvent purchase.id
                    { httpStatus := 200, db := db1,
                      sse := (sse.publish channelId ev).cleanup_channel
                        channelId,
                      published := [(channelId, ev)] }
                  | none =>
                    { httpStatus := 200, db := db1, sse := sse,
                      published := [] }

/-! ### Payment initiation (`initiate_payment`, routes.py 1417-1574) -/

/-- Inbound initiate request (`request.get_json()` fields). `phoneNumber`
is the raw value before `str(...).strip()`. -/
structure InitiateReq where
  phoneNumber : String
  assetId : Option Nat
  channelId : Option String
  tier : Option Tier
deriving DecidableEq, Repr

/-- Response + post-state of `initiate_payment`. -/
structure InitiateResult where
  httpStatus : Nat
  success : Bool
  db : Db
  sess : Session
  purchaseId : Option Nat
  dealId : Option String
deriving DecidableEq, Repr

/-- The find-or-create customer step of `initiate_payment` (routes.py
1457-1462): `Customer.query.filter_by(whatsapp_number=...).first()`, with
a new row added and flushed when absent. -/
def findOrCreateCustomer (db : Db) (phone : String) : Customer × Db :=
  match db.customers.find? (fun c => c.whatsappNumber == phone) with
  | some c => (c, db)
  | none =>
    let c : Customer := { id := db.nextCustomerId, whatsappNumber := phone }
    (c, { db with customers := db.customers ++ [c],
                  nextCustomerId := db.nextCustomerId + 1 })

@[simp] theorem findOrCreateCustomer_purchases (db : Db) (phone : String) :
    (findOrCreateCustomer db phone).2.purchases = db.purchases := by
  unfold findOrCreateCustomer
  split <;> rfl

@[simp] theorem findOrCreateCustomer_nextPurchaseId (db : Db)
    (phone : String) :
    (findOrCreateCustomer db phone).2.nextPurchaseId
      = db.nextPurchaseId := by
  unfold findOrCreateCustomer
  split <;> rfl

@[simp] theorem findOrCreateCustomer_assets (db : Db) (phone : String) :
    (findOrCreateCustomer db phone).2.assets = db.assets := by
  unfold findOrCreateCustomer
  split <;> rfl

@[simp] theorem findOrCreateCustomer_creators (db : Db) (phone : String) :
    (findOrCreateCustomer db phone).2.creators = db.creators := by
  unfold findOrCreateCustomer
  split <;> rfl

@[simp] theorem findOrCreateCustomer_files (db : Db) (phone : String) :
    (findOrCreateCustomer db phone).2.files = db.files := by
  unfold findOrCreateCustomer
  split <;> rfl

/-- Handler `initiate_payment` (routes.py 1417-1574). `gw` is the gateway oracle:
`some dealId` when the UZA call returns 2xx with
`data.order.id = dealId`, `none` for any network/HTTP/shape failure
(all of which land in the same `except` branch). Returns `none` when
`asset.creator` dangles (unhandled crash). -/
def initiate_payment (db : Db) (sess : Session) (now : Nat)
    (req : InitiateReq) (gw : Option String) : Option InitiateResult :=
  let phone := pyStrip req.phoneNumber
  match req.assetId, req.channelId with
  | some assetId, some channelId =>
    if phone == "" || assetId == 0 || channelId == "" then
      some { httpStatus := 400, success := false, db := db, sess := sess,
             purchaseId := none, dealId := none }
    else
      match db.assets.find? (fun a => a.id == assetId) with
      | none =>
        some { httpStatus := 404, success := false, db := db, sess := sess,
               purchaseId := none, dealId := none }
      | some asset =>
        let priced : Int × Option Tier :=
          match req.tier with
          | some t =>
            match t.price with
            | some tierPrice => (tierPrice, some t)
            | none => (asset.price, none)
          | none => (asset.price, none)
        let customer := (findOrCreateCustomer db phone).1
        let db1 := (findOrCreateCustomer db phone).2
        let newPurchase : Purchase :=
          { id := db1.nextPurchaseId
            customerId := customer.id
            assetId := asset.id
            amountPaid := priced.1
            purchaseDate := now
            status := PurchaseStatus.pending
            paymentGatewayRef := none
            sseChannelId := some channelId
            tierData := priced.2 }
        let db2 : Db :=
          { db1 with purchases := db1.purchases ++ [newPurchase]
                     nextPurchaseId := db1.nextPurchaseId + 1 }
        match db2.creators.find? (fun c => c.id == asset.creatorId) with
        | none => none
        | some creator =>
          if !truthyStr creator.uzaPk then
            some { httpStatus := 500, success := false, db := db2,
                   sess := sess, purchaseId := none, dealId := none }
          else
            let sess1 :=
              match sess.customerPhone with
              | some old =>
                if old != "" && pyStrip old != phone then
                  { sess with customerPhone := none, isVerified := false }
                else sess
              | none => sess
            let sess2 : Session :=
              { sess1 with customerPhone := some phone,
                           isVerified := false }
            let onFailure : InitiateResult :=
              { httpStatus := 500, success := false
                db := { db2 with purchases := db2.purchases.map (fun p =>
                  if p.id == newPurchase.id then
                    { p with status := PurchaseStatus.failed }
                  else p) }
                sess := sess2, purchaseId := none, dealId := none }
            match gw with
            | some dealId =>
              if dealId == "" then some onFailure
              else
                some { httpStatus := 200, success := true
                       db := { db2 with
                         purchases := db2.purchases.map (fun p =>
                           if p.id == newPurchase.id then
                             { p with paymentGatewayRef := some dealId }
                           else p) }
                       sess := sess2
                       purchaseId := some newPurchase.id
                       dealId := some dealId }
            | none => some onFailure
  | _, _ =>
    some { httpStatus := 400, success := false, db := db, sess := sess,
           purchaseId := none, dealId := none }

/-! ### Payment retry (`retry_payment`, routes.py 1576-1625) -/

/-- Inbound retry request fields. -/
structure RetryReq where
  dealId : Option String
  phoneNumber : Option String
  purchaseId : Option Nat
deriving DecidableEq, Repr

/-- Response + post-state of `retry_payment`. -/
structure RetryResult where
  httpStatus : Nat
  success : Bool
  db : Db
  sess : Session
deriving DecidableEq, Repr

/-- Handler `retry_payment` (routes.py 1576-1625). `gwOk` is the outcome of the
outbound UZA retry call. Returns `none` on a dangling
`purchase.asset`/`asset.creator` (unhandled crash). -/
def retry_payment (db : Db) (sess : Session) (req : RetryReq)
    (gwOk : Bool) : Option RetryResult :=
  match req.dealId, req.phoneNumber, req.purchaseId with
  | some dealId, some newPhone, some purchaseId =>
    if dealId == "" || newPhone == "" || purchaseId == 0 then
      some { httpStatus := 400, success := false, db := db, sess := sess }
    else
      match db.purchases.find? (fun p => p.id == purchaseId) with
      | none =>
        some { httpStatus := 404, success := false, db := db, sess := sess }
      | some purchase =>
        match db.assets.find? (fun a => a.id == purchase.assetId) with
        | none => none
        | some asset =>
          match db.creators.find? (fun c => c.id == asset.creatorId) with
          | none => none
          | some creator =>
            if !truthyStr creator.uzaPk then
              some { httpStatus := 500, success := false, db := db,
                     sess := sess }
            else
              let db1 : Db :=
                { db with purchases := db.purchases.map (fun p =>
                    if p.id == purchase.id then
                      { p with status := PurchaseStatus.pending }
                    else p) }
              if gwOk then
                some { httpStatus := 200, success := true, db := db1,
                       sess := { sess with customerPhone := some newPhone } }
              else
                some { httpStatus := 500, success := false
                       db := { db1 with
                         purchases := db1.purchases.map (fun p =>
                           if p.id == purchase.id then
                             { p with status := PurchaseStatus.failed }
                           else p) }
                       sess := sess }
  | _, _, _ =>
    some { httpStatus := 400, success := false, db := db, sess := sess }

/-! ### Concrete sample states used by witnesses and counterexamples -/

/-- A non-subscription asset owned by creator 7, no sales yet. -/
def sampleAsset : DigitalAsset :=
  { id := 1, creatorId := 7, slug := "course", price := 50
    isSubscription := false, subscriptionInterval := none
    totalSales := some 0, totalRevenue := some 0 }

/-- Creator 7 with a configured public key and no webhook secret. -/
def sampleCreator : CreatorRec :=
  { id := 7, uzaPk := some "pk-live", uzaSecret := none }

/-- A pending purchase already linked to gateway ref `"X"`. -/
def samplePurchase : Purchase :=
  { id := 1, customerId := 1, assetId := 1, amountPaid := 50
    purchaseDate := 1000, status := .pending
    paymentGatewayRef := some "X", sseChannelId := some "chan"
    tierData := none }

def sampleCustomer : Customer :=
  { id := 1, whatsappNumber := "255700000001" }

def sampleFile : AssetFile :=
  { id := 1, assetId := 1, storagePath := "secure_uploads/lesson1.mp4" }

def sampleDb : Db :=
  { purchases := [samplePurchase], assets := [sampleAsset]
    customers := [sampleCustomer], files := [sampleFile]
    creators := [sampleCreator], nextPurchaseId := 2, nextCustomerId := 2 }

def sampleSse : SseManager := ⟨[("chan", [])]⟩

def sampleWebhookReq : WebhookReq :=
  { secretParam := none, payload := some { dealId := some "X" } }

/-- An anonymous (pre-claim) session. -/
def sess0 : Session :=
  { customerPhone := none, isVerified := false, creatorId := none }

/-- A session verified for identity "255700000001" by an earlier purchase. -/
def sessVerifiedA : Session :=
  { customerPhone := some "255700000001", isVerified := true,
    creatorId := none }

/-- Retry request switching to a new phone number. -/
def retryReqB : RetryReq :=
  { dealId := some "X", phoneNumber := some "255700000002",
    purchaseId := some 1 }

def failedPurchase : Purchase := { samplePurchase with status := .failed }

def dbFailed : Db := { sampleDb with purchases := [failedPurchase] }

/-- A registry whose only channel's queue is at capacity. -/
def fullQueueSse : SseManager :=
  ⟨[("c", List.replicate sseQueueCapacity
      { status := "SUCCESS", message := "m", redirectUrl := none })]⟩

/-- Number of purchases holding a given gateway ref. -/
def gatewayRefHolders (db : Db) (ref : String) : Nat :=
  (db.purchases.filter (fun p => p.paymentGatewayRef == some ref)).length

/-! ### General helper lemmas -/

/-- Lemma: `find?` commutes with a map that does not change the predicate. -/
theorem find?_map_pred_inv {α : Type} (l : List α) (f : α → α)
    (p : α → Bool) (h : ∀ x, p (f x) = p x) :
    (l.map f).find? p = (l.find? p).map f := by
  rw [List.find?_map]
  have hpf : p ∘ f = p := funext h
  rw [hpf]

/-- Pointwise relation between a list and its image under a map. -/
theorem forall₂_map_self {α : Type} (l : List α) (f : α → α)
    (r : α → α → Prop) (h : ∀ x ∈ l, r x (f x)) :
    List.Forall₂ r l (l.map f) := by
  induction l with
  | nil => exact List.Forall₂.nil
  | cons a t ih =>
    exact List.Forall₂.cons (h a (List.mem_cons_self a t))
      (ih (fun x hx => h x (List.mem_cons_of_mem a hx)))

/-- A list is pointwise related to itself. -/
theorem forall₂_self {α : Type} (l : List α) (r : α → α → Prop)
    (h : ∀ x ∈ l, r x x) : List.Forall₂ r l l := by
  have hm := forall₂_map_self l id r (by simpa using h)
  simpa using hm

/-! ### Shape lemmas: how each handler rewrites the purchase table -/

/-- The webhook either leaves the purchase table unchanged or completes
exactly the purchases with the matched purchase's id. -/
theorem webhook_purchases_shape (req : WebhookReq) (db : Db)
    (sse : SseManager) (co : Bool) :
    (uza_payment_callback req db sse co).db.purchases = db.purchases ∨
    ∃ pid, (uza_payment_callback req db sse co).db.purchases
      = db.purchases.map (fun q =>
          if q.id == pid then { q with status := .completed } else q) := by
  simp only [uza_payment_callback]
  repeat' split
  all_goals first
    | exact Or.inl rfl
    | exact Or.inr ⟨_, rfl⟩

/-- Handler `retry_payment` either leaves the purchase table unchanged, resets the
target id to PENDING, or resets it to PENDING then FAILED. -/
theorem retry_purchases_shape (db : Db) (sess : Session) (req : RetryReq)
    (gwOk : Bool) (r : RetryResult)
    (h : retry_payment db sess req gwOk = some r) :
    r.db.purchases = db.purchases ∨
    ∃ pid, r.db.purchases
        = db.purchases.map (fun q =>
            if q.id == pid then { q with status := .pending } else q) ∨
      r.db.purchases
        = (db.purchases.map (fun q =>
            if q.id == pid then { q with status := .pending } else q)).map
          (fun q =>
            if q.id == pid then { q with status := .failed } else q) := by
  simp only [retry_payment] at h
  repeat' split at h
  all_goals cases h
  all_goals first
    | exact Or.inl rfl
    | exact Or.inr ⟨_, Or.inl rfl⟩
    | exact Or.inr ⟨_, Or.inr rfl⟩

/-- Handler `initiate_payment` either leaves the purchase table unchanged or
appends one fresh PENDING purchase (id `nextPurchaseId`), possibly then
attaching a gateway ref to it or failing it. -/
theorem initiate_purchases_shape (db : Db) (sess : Session) (now : Nat)
    (req : InitiateReq) (gw : Option String) (r : InitiateResult)
    (h : initiate_payment db sess now req gw = some r) :
    r.db.purchases = db.purchases ∨
    ∃ newP : Purchase, newP.status = .pending ∧ newP.id = db.nextPurchaseId
      ∧ (r.db.purchases = db.purchases ++ [newP] ∨
        (∃ dealId, r.db.purchases
          = (db.purchases ++ [newP]).map (fun q =>
              if q.id == db.nextPurchaseId then
                { q with paymentGatewayRef := some dealId }
              else q)) ∨
        r.db.purchases
          = (db.purchases ++ [newP]).map (fun q =>
              if q.id == db.nextPurchaseId then { q with status := .failed }
              else q)) := by
  rw [initiate_payment] at h
  cases haid : req.assetId with
  | none =>
    rw [haid] at h
    cases hcid : req.channelId with
    | none => rw [hcid] at h; cases h; exact Or.inl rfl
    | some cid => rw [hcid] at h; cases h; exact Or.inl rfl
  | some aid =>
    rw [haid] at h
    cases hcid : req.channelId with
    | none => rw [hcid] at h; cases h; exact Or.inl rfl
    | some cid =>
      rw [hcid] at h
      simp only [] at h
      by_cases hval : (pyStrip req.phoneNumber == "" || aid == 0 ||
          cid == "") = true
      · rw [if_pos hval] at h; cases h; exact Or.inl rfl
      · rw [if_neg hval] at h
        cases hasset : db.assets.find? (fun a => a.id == aid) with
        | none => rw [hasset] at h; cases h; exact Or.inl rfl
        | some asset =>
          simp only [hasset] at h
          simp only [findOrCreateCustomer_purchases,
            findOrCreateCustomer_nextPurchaseId,
            findOrCreateCustomer_assets,
            findOrCreateCustomer_creators] at h
          cases hcre : db.creators.find? (fun c =>
              c.id == asset.creatorId) with
          | none => rw [hcre] at h; cases h
          | some creator =>
            simp only [hcre] at h
            by_cases hpk : (!truthyStr creator.uzaPk) = true
            · rw [if_pos hpk] at h
              cases h
              refine Or.inr ⟨_, ?_, ?_, Or.inl rfl⟩ <;> rfl
            · rw [if_neg hpk] at h
              cases hgw : gw with
              | none =>
                simp only [hgw] at h
                cases h
                refine Or.inr ⟨_, ?_, ?_, Or.inr (Or.inr rfl)⟩ <;> rfl
              | some dealId =>
                simp only [hgw] at h
                by_cases hde : (dealId == "") = true
                · rw [if_pos hde] at h
                  cases h
                  refine Or.inr ⟨_, ?_, ?_, Or.inr (Or.inr rfl)⟩ <;> rfl
                · rw [if_neg hde] at h
                  cases h
                  refine Or.inr ⟨_, ?_, ?_,
                    Or.inr (Or.inl ⟨dealId, rfl⟩)⟩ <;> rfl

/-! ### Claim theorems -/

/-- C9: publishing on a channel after `cleanup_channel` has removed it (or
on a channel that never existed) is a no-op — no error, no delivery, the
registry is unchanged; and publishing on a full queue drops the message,
leaving the registry unchanged. -/
theorem C9_publish_noop :
    (∀ (m : SseManager) (cid : String) (d : SseEvent),
      (m.cleanup_channel cid).publish cid d = m.cleanup_channel cid) ∧
    (∀ (m : SseManager) (cid : String) (d : SseEvent),
      m.lookup cid = none → m.publish cid d = m) ∧
    (∀ (m : SseManager) (cid : String) (d : SseEvent) (q : List SseEvent),
      m.lookup cid = some q → sseQueueCapacity ≤ q.length →
      m.publish cid d = m) := by
  refine ⟨?_, ?_, ?_⟩
  · intro m cid d
    have h : (m.cleanup_channel cid).lookup cid = none := by
      simp only [SseManager.cleanup_channel, SseManager.lookup,
        Option.map_eq_none', List.find?_eq_none]
      intro x hx
      have hne := List.of_mem_filter hx
      simpa using hne
    simp only [SseManager.publish, h]
  · intro m cid d h
    simp only [SseManager.publish, h]
  · intro m cid d q hq hlen
    simp only [SseManager.publish, hq]
    have hnlt : ¬ q.length < sseQueueCapacity := by omega
    simp [hnlt]

/-- Witness for C9 at concrete registries. -/
theorem C9_publish_noop_witness :
    ((sampleSse.cleanup_channel "chan").publish "chan" (successEvent 1)
        = sampleSse.cleanup_channel "chan") ∧
    (sampleSse.lookup "ghost" = none ∧
      sampleSse.publish "ghost" (successEvent 1) = sampleSse) ∧
    (fullQueueSse.lookup "c" = some (List.replicate sseQueueCapacity
        { status := "SUCCESS", message := "m", redirectUrl := none }) ∧
      sseQueueCapacity ≤ (List.replicate sseQueueCapacity
        ({ status := "SUCCESS", message := "m", redirectUrl := none } :
          SseEvent)).length ∧
      fullQueueSse.publish "c"
        { status := "FAILED", message := "n", redirectUrl := none }
        = fullQueueSse) :=
  ⟨C9_publish_noop.1 sampleSse "chan" (successEvent 1),
   ⟨by decide, C9_publish_noop.2.1 sampleSse "ghost" (successEvent 1)
      (by decide)⟩,
   ⟨by decide, by decide,
    C9_publish_noop.2.2 fullQueueSse "c"
      { status := "FAILED", message := "n", redirectUrl := none }
      (List.replicate sseQueueCapacity
        { status := "SUCCESS", message := "m", redirectUrl := none })
      (by decide) (by decide)⟩⟩

/-- C8 (code behavior at the failing input): a successful `retry_payment`
with a new phone number switches the session's claimed identity but leaves
`is_verified` true — the prior identity's verified state leaks — whereas
`initiate_payment` with a new number does reset `is_verified` to false. -/
theorem C8_identity_switch_keeps_verified :
    (retry_payment sampleDb sessVerifiedA retryReqB true).map
        (fun r => (r.sess.customerPhone, r.sess.isVerified))
      = some (some "255700000002", true) ∧
    (initiate_payment sampleDb sessVerifiedA 1000
        { phoneNumber := "255700000002", assetId := some 1,
          channelId := some "chan2", tier := none } (some "Y")).map
        (fun r => (r.sess.customerPhone, r.sess.isVerified))
      = some (some "255700000002", false) := by decide

/-- C1 (counterexample): `retry_payment` on a purchase in the terminal
FAILED state resets it to PENDING — a terminal→PENDING transition the
claim rules out. -/
theorem C1_counterexample :
    ((dbFailed.purchases.find? (fun p => p.id == 1)).map
        (fun p => p.status) = some .failed) ∧
    (retry_payment dbFailed sess0 retryReqB true).map
        (fun r => (r.db.purchases.find? (fun p => p.id == 1)).map
          (fun p => p.status))
      = some (some .pending) := by decide

/-- C3 (counterexample): with purchase 1 already holding gateway ref "X",
`initiate_payment` whose gateway call returns the same deal id "X"
succeeds (HTTP 200, `success = true`, no conflict error) and leaves two
purchases holding ref "X". -/
theorem C3_counterexample :
    gatewayRefHolders sampleDb "X" = 1 ∧
    (initiate_payment sampleDb sess0 1000
        { phoneNumber := "255700000003", assetId := some 1,
          channelId := some "chan3", tier := none } (some "X")).map
        (fun r => (r.httpStatus, r.success, gatewayRefHolders r.db "X"))
      = some (200, true, 2) := by decide

/-- C6 (counterexample): a request by the asset's own creator (session
`creator_id` = 7 = the asset's creator) without a verified customer
session is denied with 403, although the claim grants creator access
unconditionally. -/
theorem C6_counterexample :
    sampleAsset.creatorId = 7 ∧ sampleFile.assetId = sampleAsset.id ∧
    serve_content sampleDb
      { customerPhone := none, isVerified := false, creatorId := some 7 }
      0 1 = some .forbidden := by decide

/-- The interval table as the spec states it: weekly=7d, monthly=30d,
quarterly=90d, yearly=365d. -/
def intervalDaysSpec : SubscriptionInterval → Nat
  | .weekly => 7
  | .monthly => 30
  | .quarterly => 90
  | .yearly => 365

/-- C7: a subscription purchase is active exactly when
`now < purchase_date + interval_length`, with weekly=7d, monthly=30d,
quarterly=90d, yearly=365d; a tier-level interval stored on the purchase
record overrides the asset-level default; and a content fetch against an
expired subscription returns the renew redirect, not a flat 403. -/
theorem C7_subscription_expiry :
    (∀ (a : DigitalAsset) (p : Purchase) (now : Nat) (t : Tier)
        (s : String) (iv : SubscriptionInterval),
      a.isSubscription = true → p.tierData = some t →
      t.interval = some s → pyLower s = pyLower iv.pyName →
      (check_subscription_status a p now).1
        = decide (now < p.purchaseDate +
            intervalDaysSpec iv * daySeconds)) ∧
    (∀ (a : DigitalAsset) (p : Purchase) (now : Nat)
        (iv : SubscriptionInterval),
      a.isSubscription = true → p.tierData = none →
      a.subscriptionInterval = some iv →
      (check_subscription_status a p now).1
        = decide (now < p.purchaseDate +
            intervalDaysSpec iv * daySeconds)) ∧
    (∀ (db : Db) (sess : Session) (now : Nat) (fid : Nat)
        (phone : String) (f : AssetFile) (c : Customer)
        (a : DigitalAsset) (p : Purchase),
      sess.customerPhone = some phone → phone ≠ "" →
      sess.isVerified = true →
      db.files.find? (fun x => x.id == fid) = some f →
      db.customers.find? (fun x => x.whatsappNumber == phone) = some c →
      db.assets.find? (fun x => x.id == f.assetId) = some a →
      latestCompletedPurchase db c.id f.assetId = some p →
      a.isSubscription = true →
      (check_subscription_status a p now).1 = false →
      serve_content db sess now fid
        = some (.renew a.slug
            ((check_subscription_status a p now).2.getD 0))) := by
  refine ⟨?_, ?_, ?_⟩
  · intro a p now t s iv ha htd hti hs
    cases iv <;>
      · simp only [check_subscription_status, ha, Bool.not_true,
          Bool.false_eq_true, if_false, htd, hti, Option.getD_some, hs]
        rfl
  · intro a p now iv ha htd hiv
    cases iv <;>
      · simp only [check_subscription_status, ha, Bool.not_true,
          Bool.false_eq_true, if_false, htd, hiv]
        rfl
  · intro db sess now fid phone f c a p hph hphne hver hfile hcust hass
      hlat hsub hexp
    have hb : (phone == "") = false := by simpa using hphne
    simp only [serve_content, hph, hb, hver, Bool.not_true,
      Bool.or_self, Bool.false_or, Bool.or_false, Bool.false_eq_true,
      if_false, hfile, hcust, hass, hlat, hsub, hexp, Option.isNone_some,
      Bool.false_and, if_true]

/-- A monthly subscription asset and related concrete state. -/
def subAsset : DigitalAsset :=
  { id := 2, creatorId := 7, slug := "subs", price := 10
    isSubscription := true, subscriptionInterval := some .monthly
    totalSales := none, totalRevenue := none }

/-- A tier carrying a weekly interval override. -/
def weeklyTier : Tier := { price := some 10, interval := some "Weekly" }

/-- A completed subscription purchase made at time 0, no tier data. -/
def subPurchase : Purchase :=
  { id := 3, customerId := 1, assetId := 2, amountPaid := 10
    purchaseDate := 0, status := .completed, paymentGatewayRef := none
    sseChannelId := none, tierData := none }

/-- The same purchase with the weekly tier override. -/
def subPurchaseTier : Purchase := { subPurchase with tierData := some weeklyTier }

def subFile : AssetFile :=
  { id := 9, assetId := 2, storagePath := "secure_uploads/issue1.pdf" }

def subDb : Db :=
  { purchases := [subPurchase], assets := [subAsset]
    customers := [sampleCustomer], files := [subFile]
    creators := [sampleCreator], nextPurchaseId := 4, nextCustomerId := 2 }

def subSess : Session :=
  { customerPhone := some "255700000001", isVerified := true,
    creatorId := none }

/-- Witness for C7: a tier-override weekly case, an asset-default monthly
case, and the spec's 31-days-ago expired-monthly renew scenario. -/
theorem C7_subscription_expiry_witness :
    ((check_subscription_status subAsset subPurchaseTier
        (8 * daySeconds)).1
      = decide ((8 * daySeconds) < 0 +
          intervalDaysSpec .weekly * daySeconds) ∧
      (check_subscription_status subAsset subPurchase (8 * daySeconds)).1
      = decide ((8 * daySeconds) < 0 +
          intervalDaysSpec .monthly * daySeconds)) ∧
    ((check_subscription_status subAsset subPurchase
        (31 * daySeconds)).1 = false ∧
      serve_content subDb subSess (31 * daySeconds) 9
        = some (.renew "subs" (30 * daySeconds))) :=
  ⟨⟨by
      have h := C7_subscription_expiry.1 subAsset subPurchaseTier
        (8 * daySeconds) weeklyTier "Weekly" .weekly rfl rfl rfl
        (by decide)
      simpa using h,
    C7_subscription_expiry.2.1 subAsset subPurchase (8 * daySeconds)
      .monthly rfl rfl rfl⟩,
   ⟨by decide,
    by
      have h := C7_subscription_expiry.2.2 subDb subSess (31 * daySeconds)
        9 "255700000001" subFile sampleCustomer subAsset subPurchase rfl
        (by decide) rfl (by decide) (by decide) (by decide) (by decide)
        rfl (by decide)
      simpa using h⟩⟩

/-- C1 (amended): statuses move only as follows. The webhook leaves every
purchase's status unchanged or moves it (from PENDING — or FAILED — i.e.
from any non-COMPLETED state) to COMPLETED. `retry_payment` leaves
statuses unchanged except for the target purchase, which it resets to
PENDING (from any prior status, including the terminal FAILED and
COMPLETED) and, on gateway failure, then to FAILED. `initiate_payment`
never changes an existing purchase's status; the purchase it creates ends
PENDING or FAILED. -/
theorem C1_amended :
    (∀ (req : WebhookReq) (db : Db) (sse : SseManager) (co : Bool),
      List.Forall₂ (fun x q => x.id = q.id ∧
          (q.status = x.status ∨
            (x.status ≠ .completed ∧ q.status = .completed)))
        db.purchases (uza_payment_callback req db sse co).db.purchases) ∧
    (∀ (db : Db) (sess : Session) (req : RetryReq) (gwOk : Bool)
        (r : RetryResult), retry_payment db sess req gwOk = some r →
      List.Forall₂ (fun x q => x.id = q.id ∧
          (q.status = x.status ∨ q.status = .pending ∨
            q.status = .failed))
        db.purchases r.db.purchases) ∧
    (∀ (db : Db) (sess : Session) (now : Nat) (req : InitiateReq)
        (gw : Option String) (r : InitiateResult),
      initiate_payment db sess now req gw = some r →
      ∀ q ∈ r.db.purchases,
        (∃ x ∈ db.purchases, x.id = q.id ∧ q.status = x.status) ∨
        q.status = .pending ∨ q.status = .failed) := by
  refine ⟨?_, ?_, ?_⟩
  · intro req db sse co
    rcases webhook_purchases_shape req db sse co with h | ⟨pid, h⟩
    · rw [h]
      exact forall₂_self _ _ (fun x _ => ⟨rfl, Or.inl rfl⟩)
    · rw [h]
      refine forall₂_map_self _ _ _ (fun x _ => ?_)
      by_cases hid : (x.id == pid) = true
      · by_cases hst : x.status = .completed
        · exact ⟨by simp [hid], Or.inl (by simp [hid, hst])⟩
        · exact ⟨by simp [hid], Or.inr ⟨hst, by simp [hid]⟩⟩
      · simp [hid]
  · intro db sess req gwOk r h
    rcases retry_purchases_shape db sess req gwOk r h with h' | ⟨pid, h' | h'⟩
    · rw [h']
      exact forall₂_self _ _ (fun x _ => ⟨rfl, Or.inl rfl⟩)
    · rw [h']
      refine forall₂_map_self _ _ _ (fun x _ => ?_)
      by_cases hid : (x.id == pid) = true
      · exact ⟨by simp [hid], Or.inr (Or.inl (by simp [hid]))⟩
      · simp [hid]
    · rw [h', List.map_map]
      refine forall₂_map_self _ _ _ (fun x _ => ?_)
      by_cases hid : (x.id == pid) = true
      · exact ⟨by simp [Function.comp, hid],
          Or.inr (Or.inr (by simp [Function.comp, hid]))⟩
      · simp [Function.comp, hid]
  · intro db sess now req gw r h q hq
    rcases initiate_purchases_shape db sess now req gw r h with
      h' | ⟨newP, hpend, _, h' | ⟨d', h'⟩ | h'⟩
    · rw [h'] at hq
      exact Or.inl ⟨q, hq, rfl, rfl⟩
    · rw [h'] at hq
      rcases List.mem_append.mp hq with hmem | hmem
      · exact Or.inl ⟨q, hmem, rfl, rfl⟩
      · rcases List.mem_singleton.mp hmem with rfl
        exact Or.inr (Or.inl hpend)
    · rw [h'] at hq
      rcases List.mem_map.mp hq with ⟨x, hx, rfl⟩
      have hstat : (if x.id == db.nextPurchaseId then
          { x with paymentGatewayRef := some d' } else x).status
            = x.status := by
        by_cases hid : (x.id == db.nextPurchaseId) = true <;> simp [hid]
      have hidq : (if x.id == db.nextPurchaseId then
          { x with paymentGatewayRef := some d' } else x).id = x.id := by
        by_cases hid : (x.id == db.nextPurchaseId) = true <;> simp [hid]
      rcases List.mem_append.mp hx with hmem | hmem
      · exact Or.inl ⟨x, hmem, hidq.symm, hstat⟩
      · rcases List.mem_singleton.mp hmem with rfl
        exact Or.inr (Or.inl (hstat.trans hpend))
    · rw [h'] at hq
      rcases List.mem_map.mp hq with ⟨x, hx, rfl⟩
      by_cases hid : (x.id == db.nextPurchaseId) = true
      · exact Or.inr (Or.inr (by simp [hid]))
      · simp only [Bool.not_eq_true] at hid
        simp only [hid, Bool.false_eq_true, if_false]
        rcases List.mem_append.mp hx with hmem | hmem
        · exact Or.inl ⟨x, hmem, rfl, rfl⟩
        · rcases List.mem_singleton.mp hmem with rfl
          exact Or.inr (Or.inl hpend)

/-- Witness for C1 (amended) at concrete states: the webhook transition
on `sampleDb` and a successful retry on `dbFailed`. -/
theorem C1_amended_witness :
    List.Forall₂ (fun x q => x.id = q.id ∧
        (q.status = x.status ∨
          (x.status ≠ .completed ∧ q.status = .completed)))
      sampleDb.purchases
      (uza_payment_callback sampleWebhookReq sampleDb sampleSse
        true).db.purchases ∧
    (retry_payment dbFailed sess0 retryReqB true
        = some { httpStatus := 200, success := true,
                 db := { dbFailed with purchases :=
                   [{ failedPurchase with status := .pending }] },
                 sess := { sess0 with
                   customerPhone := some "255700000002" } } ∧
      List.Forall₂ (fun x q => x.id = q.id ∧
          (q.status = x.status ∨ q.status = .pending ∨
            q.status = .failed))
        dbFailed.purchases
        [{ failedPurchase with status := .pending }]) :=
  ⟨C1_amended.1 sampleWebhookReq sampleDb sampleSse true,
   by decide,
   by
    have h := C1_amended.2.1 dbFailed sess0 retryReqB true
      { httpStatus := 200, success := true,
        db := { dbFailed with purchases :=
          [{ failedPurchase with status := .pending }] },
        sess := { sess0 with customerPhone := some "255700000002" } }
      (by decide)
    simpa using h⟩

/-- C10: the webhook callback never records a failed payment — any
purchase that is FAILED after the call was already that same FAILED row
before it — and whenever the handler answers 200 to a payload naming deal
id `d`, the purchase holding gateway ref `d` is COMPLETED afterwards. -/
theorem C10_webhook_never_records_failure :
    (∀ (req : WebhookReq) (db : Db) (sse : SseManager) (co : Bool)
        (q : Purchase),
      q ∈ (uza_payment_callback req db sse co).db.purchases →
      q.status = .failed → q ∈ db.purchases) ∧
    (∀ (req : WebhookReq) (db : Db) (sse : SseManager) (co : Bool)
        (pl : CallbackPayload) (d : String),
      req.payload = some pl → pl.dealId = some d →
      (uza_payment_callback req db sse co).httpStatus = 200 →
      ((uza_payment_callback req db sse co).db.purchases.find? (fun p =>
          p.paymentGatewayRef == some d)).map (fun p => p.status)
        = some .completed) := by
  constructor
  · intro req db sse co q hq hfail
    rcases webhook_purchases_shape req db sse co with h | ⟨pid, h⟩
    · rwa [h] at hq
    · rw [h] at hq
      rcases List.mem_map.mp hq with ⟨x, hx, rfl⟩
      by_cases hid : (x.id == pid) = true
      · simp [hid] at hfail
      · simp only [Bool.not_eq_true] at hid
        simpa [hid] using hx
  · intro req db sse co pl d hpl hd h200
    cases hsec : secretRejected db req with
    | true => simp [uza_payment_callback, hsec] at h200
    | false =>
      cases hde : (d == "") with
      | true =>
        simp [uza_payment_callback, hsec, hpl, hd, hde] at h200
      | false =>
        cases hfind : db.purchases.find? (fun p =>
            p.paymentGatewayRef == some d) with
        | none =>
          simp [uza_payment_callback, hsec, hpl, hd, hde, hfind] at h200
        | some purchase =>
          cases hst : (purchase.status == PurchaseStatus.completed) with
          | true =>
            simp only [uza_payment_callback, hsec, hpl, hd, hde, hfind,
              hst, Bool.false_eq_true, if_false]
            simp
            exact ⟨purchase, hfind, beq_iff_eq.mp hst⟩
          | false =>
            cases hass : db.assets.find? (fun a =>
                a.id == purchase.assetId) with
            | none =>
              simp [uza_payment_callback, hsec, hpl, hd, hde, hfind, hst,
                hass] at h200
            | some asset =>
              cases co with
              | false =>
                simp [uza_payment_callback, hsec, hpl, hd, hde, hfind,
                  hst, hass] at h200
              | true =>
                have hmap : (db.purchases.map (fun p =>
                    if p.id == purchase.id then
                      { p with status := PurchaseStatus.completed }
                    else p)).find? (fun p =>
                      p.paymentGatewayRef == some d)
                    = some { purchase with
                        status := PurchaseStatus.completed } := by
                  rw [find?_map_pred_inv _ _ _ (fun x => by
                    by_cases hid : (x.id == purchase.id) = true <;>
                      simp [hid])]
                  rw [hfind]
                  simp
                cases hch : purchase.sseChannelId with
                | none =>
                  simp only [uza_payment_callback, hsec, hpl, hd, hde,
                    hfind, hst, hass, hch, Bool.false_eq_true, if_false,
                    Bool.not_true, Bool.not_false, if_true]
                  rw [hmap]
                  rfl
                | some cid =>
                  simp only [uza_payment_callback, hsec, hpl, hd, hde,
                    hfind, hst, hass, hch, Bool.false_eq_true, if_false,
                    Bool.not_true, Bool.not_false, if_true]
                  rw [hmap]
                  rfl

/-- Witness for C10: the concrete webhook call on `sampleDb`. -/
theorem C10_webhook_never_records_failure_witness :
    (failedPurchase ∈ (uza_payment_callback sampleWebhookReq dbFailed
        ⟨[]⟩ false).db.purchases ∧ failedPurchase.status = .failed ∧
      failedPurchase ∈ dbFailed.purchases) ∧
    (sampleWebhookReq.payload = some { dealId := some "X" } ∧
      (uza_payment_callback sampleWebhookReq sampleDb sampleSse
        true).httpStatus = 200 ∧
      ((uza_payment_callback sampleWebhookReq sampleDb sampleSse
          true).db.purchases.find? (fun p =>
            p.paymentGatewayRef == some "X")).map (fun p => p.status)
        = some .completed) :=
  ⟨⟨by decide, by decide,
    C10_webhook_never_records_failure.1 sampleWebhookReq dbFailed ⟨[]⟩
      false failedPurchase (by decide) (by decide)⟩,
   ⟨by decide, by decide,
    C10_webhook_never_records_failure.2 sampleWebhookReq sampleDb
      sampleSse true { dealId := some "X" } "X" (by decide) rfl
      (by decide)⟩⟩

/-- C2: a first completion-triggering webhook call increments the asset's
`total_sales`/`total_revenue` exactly once and completes the purchase; a
second call with the same gateway ref answers 200 and re-applies nothing:
the database, the bridge registry and the publish log are untouched. -/
theorem C2_webhook_idempotent :
    ∀ (req : WebhookReq) (db : Db) (sse : SseManager)
      (pl : CallbackPayload) (d : String) (p : Purchase)
      (a : DigitalAsset),
      secretRejected db req = false →
      req.payload = some pl → pl.dealId = some d → d ≠ "" →
      db.purchases.find? (fun q => q.paymentGatewayRef == some d)
        = some p →
      p.status = .pending →
      db.assets.find? (fun x => x.id == p.assetId) = some a →
      ((uza_payment_callback req db sse true).httpStatus = 200 ∧
        (uza_payment_callback req db sse true).db.assets.find?
            (fun x => x.id == p.assetId)
          = some { a with
              totalSales := some (a.totalSales.getD 0 + 1)
              totalRevenue := some (a.totalRevenue.getD 0 +
                p.amountPaid) } ∧
        ((uza_payment_callback req db sse true).db.purchases.find?
            (fun q => q.paymentGatewayRef == some d)).map
            (fun q => q.status) = some .completed) ∧
      (uza_payment_callback req (uza_payment_callback req db sse true).db
          (uza_payment_callback req db sse true).sse true).httpStatus
        = 200 ∧
      (uza_payment_callback req (uza_payment_callback req db sse true).db
          (uza_payment_callback req db sse true).sse true).db
        = (uza_payment_callback req db sse true).db ∧
      (uza_payment_callback req (uza_payment_callback req db sse true).db
          (uza_payment_callback req db sse true).sse true).sse
        = (uza_payment_callback req db sse true).sse ∧
      (uza_payment_callback req (uza_payment_callback req db sse true).db
          (uza_payment_callback req db sse true).sse true).published
        = [] := by
  intro req db sse pl d p a hsec hpl hd hne hfind hpend hass
  have hde : (d == "") = false := by simpa using hne
  have hst : (p.status == PurchaseStatus.completed) = false := by
    simp [hpend]
  -- the post-state of the first call
  set db1 : Db :=
    { db with
      purchases := db.purchases.map (fun q =>
        if q.id == p.id then { q with status := PurchaseStatus.completed }
        else q)
      assets := db.assets.map (fun x =>
        if x.id == a.id then
          { x with totalSales := some (x.totalSales.getD 0 + 1)
                   totalRevenue := some (x.totalRevenue.getD 0 +
                     p.amountPaid) }
        else x) } with hdb1def
  have hr1 : (uza_payment_callback req db sse true).db = db1 ∧
      (uza_payment_callback req db sse true).httpStatus = 200 := by
    cases hch : p.sseChannelId with
    | none =>
      simp only [uza_payment_callback, hsec, hpl, hd, hde, hfind, hst,
        hass, hch, Bool.false_eq_true, if_false, Bool.not_true,
        Bool.not_false, if_true]
      refine ⟨?_, ?_⟩ <;> trivial
    | some cid =>
      simp only [uza_payment_callback, hsec, hpl, hd, hde, hfind, hst,
        hass, hch, Bool.false_eq_true, if_false, Bool.not_true,
        Bool.not_false, if_true]
      refine ⟨?_, ?_⟩ <;> trivial
  have hsec1 : secretRejected db1 req = false := hsec
  have hfind1 : db1.purchases.find? (fun q =>
      q.paymentGatewayRef == some d)
      = some { p with status := PurchaseStatus.completed } := by
    rw [hdb1def]
    show (db.purchases.map _).find? _ = _
    rw [find?_map_pred_inv _ _ _ (fun x => by
      by_cases hid : (x.id == p.id) = true <;> simp [hid])]
    rw [hfind]
    simp
  have hassfind1 : db1.assets.find? (fun x => x.id == p.assetId)
      = some { a with totalSales := some (a.totalSales.getD 0 + 1)
                      totalRevenue := some (a.totalRevenue.getD 0 +
                        p.amountPaid) } := by
    rw [hdb1def]
    show (db.assets.map _).find? _ = _
    rw [find?_map_pred_inv _ _ _ (fun x => by
      by_cases hid : (x.id == a.id) = true <;> simp [hid])]
    rw [hass]
    simp
  have hr2 : ∀ sse' : SseManager, uza_payment_callback req db1 sse' true
      = { httpStatus := 200, db := db1, sse := sse', published := [] } := by
    intro sse'
    simp only [uza_payment_callback, hsec1, hpl, hd, hde, hfind1,
      Bool.false_eq_true, if_false]
    rfl
  refine ⟨⟨hr1.2, ?_, ?_⟩, ?_, ?_, ?_, ?_⟩
  · rw [hr1.1]
    exact hassfind1
  · rw [hr1.1, hfind1]
    rfl
  · rw [hr1.1, hr2]
  · rw [hr1.1, hr2]
  · rw [hr1.1, hr2]
  · rw [hr1.1, hr2]

/-- Witness for C2 on the concrete `sampleDb`. -/
theorem C2_webhook_idempotent_witness :
    (secretRejected sampleDb sampleWebhookReq = false ∧
      samplePurchase.status = .pending ∧
      sampleDb.purchases.find? (fun q => q.paymentGatewayRef == some "X")
        = some samplePurchase ∧
      sampleDb.assets.find? (fun x => x.id == samplePurchase.assetId)
        = some sampleAsset) ∧
    ((uza_payment_callback sampleWebhookReq sampleDb sampleSse
        true).db.assets.find? (fun x => x.id == samplePurchase.assetId)
      = some { sampleAsset with
          totalSales := some (sampleAsset.totalSales.getD 0 + 1)
          totalRevenue := some (sampleAsset.totalRevenue.getD 0 +
            samplePurchase.amountPaid) } ∧
      (uza_payment_callback sampleWebhookReq
          (uza_payment_callback sampleWebhookReq sampleDb sampleSse
            true).db
          (uza_payment_callback sampleWebhookReq sampleDb sampleSse
            true).sse true).db
        = (uza_payment_callback sampleWebhookReq sampleDb sampleSse
            true).db ∧
      (uza_payment_callback sampleWebhookReq
          (uza_payment_callback sampleWebhookReq sampleDb sampleSse
            true).db
          (uza_payment_callback sampleWebhookReq sampleDb sampleSse
            true).sse true).published = []) :=
  ⟨⟨by decide, by decide, by decide, by decide⟩,
   by
    have h := C2_webhook_idempotent sampleWebhookReq sampleDb sampleSse
      { dealId := some "X" } "X" samplePurchase sampleAsset (by decide)
      rfl rfl (by decide) (by decide) (by decide) (by decide)
    exact ⟨h.1.2.1, h.2.2.1, h.2.2.2.2⟩⟩

/-- Whether a `serve_content` outcome actually hands over the content
(a file send or an external-link redirect). -/
def contentAccessGranted : ServeResult → Bool
  | .served _ => true
  | .redirectExternal _ => true
  | _ => false

theorem contentAccessGranted_serveFileOutcome (f : AssetFile) :
    contentAccessGranted (serveFileOutcome f) = true := by
  unfold serveFileOutcome
  split <;> rfl

theorem serveFileOutcome_ne_renew (f : AssetFile) (slug : String)
    (e : Nat) : serveFileOutcome f ≠ .renew slug e := by
  unfold serveFileOutcome
  split <;> simp

theorem serveFileOutcome_ne_notFound (f : AssetFile) :
    serveFileOutcome f ≠ .notFound := by
  unfold serveFileOutcome
  split <;> simp

/-- C6 (amended): content is handed over iff the session is a verified
customer session (non-empty `customer_phone`, `is_verified`) whose phone
resolves to a customer row, the file exists, and either the customer has
a COMPLETED purchase of the file's asset whose subscription (if any) is
still active, or there is no such purchase and the session's `creator_id`
is the asset's creator; an expired subscription yields the renew
redirect, and a missing file under a verified session yields 404. -/
theorem C6_amended :
    ∀ (db : Db) (sess : Session) (now : Nat) (fid : Nat)
      (r : ServeResult),
      serve_content db sess now fid = some r →
      ((contentAccessGranted r = true ↔
        (∃ phone, sess.customerPhone = some phone ∧ phone ≠ "" ∧
          sess.isVerified = true ∧
          ∃ f, db.files.find? (fun x => x.id == fid) = some f ∧
          (∃ c, db.customers.find? (fun x =>
              x.whatsappNumber == phone) = some c ∧
          ∃ a, db.assets.find? (fun x => x.id == f.assetId) = some a ∧
          ((∃ p, latestCompletedPurchase db c.id f.assetId = some p ∧
              (a.isSubscription = true →
                (check_subscription_status a p now).1 = true)) ∨
            (latestCompletedPurchase db c.id f.assetId = none ∧
              sessionIsCreator sess a = true))))) ∧
      ((∃ slug e, r = .renew slug e) ↔
        (∃ phone, sess.customerPhone = some phone ∧ phone ≠ "" ∧
          sess.isVerified = true ∧
          ∃ f, db.files.find? (fun x => x.id == fid) = some f ∧
          (∃ c, db.customers.find? (fun x =>
              x.whatsappNumber == phone) = some c ∧
          ∃ a, db.assets.find? (fun x => x.id == f.assetId) = some a ∧
          ∃ p, latestCompletedPurchase db c.id f.assetId = some p ∧
            a.isSubscription = true ∧
            (check_subscription_status a p now).1 = false))) ∧
      (r = .notFound ↔
        (∃ phone, sess.customerPhone = some phone ∧ phone ≠ "" ∧
          sess.isVerified = true ∧
          db.files.find? (fun x => x.id == fid) = none))) := by
  intro db sess now fid r h
  cases hph : sess.customerPhone with
  | none =>
    simp only [serve_content, hph] at h
    cases h
    refine ⟨?_, ?_, ?_⟩ <;> simp [contentAccessGranted, hph]
  | some phone =>
    by_cases hb : (phone == "" || !sess.isVerified) = true
    · simp only [serve_content, hph, hb, if_true] at h
      cases h
      rcases Bool.or_eq_true_iff.mp hb with hc | hc
      · have hceq : phone = "" := by simpa using hc
        refine ⟨?_, ?_, ?_⟩ <;> simp [contentAccessGranted, hph, hceq]
      · have hveq : sess.isVerified = false := by simpa using hc
        refine ⟨?_, ?_, ?_⟩ <;> simp [contentAccessGranted, hph, hveq]
    · rw [Bool.not_eq_true] at hb
      rcases Bool.or_eq_false_iff.mp hb with ⟨hpn, hvf⟩
      have hv : sess.isVerified = true := by simpa using hvf
      have hpne : phone ≠ "" := by simpa using hpn
      simp only [serve_content, hph, hb, Bool.false_eq_true, if_false] at h
      cases hfile : db.files.find? (fun x => x.id == fid) with
      | none =>
        simp only [hfile] at h
        cases h
        refine ⟨?_, ?_, ?_⟩ <;>
          simp [contentAccessGranted, hph, hpne, hv, hfile]
      | some f =>
        simp only [hfile] at h
        cases hcust : db.customers.find? (fun x =>
            x.whatsappNumber == phone) with
        | none =>
          simp only [hcust] at h
          cases h
          refine ⟨?_, ?_, ?_⟩ <;>
            simp [contentAccessGranted, hph, hpne, hv, hfile, hcust]
        | some c =>
          simp only [hcust] at h
          cases hass : db.assets.find? (fun x => x.id == f.assetId) with
          | none =>
            simp only [hass] at h
            exact Option.noConfusion h
          | some a =>
            simp only [hass] at h
            cases hlat : latestCompletedPurchase db c.id f.assetId with
            | none =>
              cases hic : sessionIsCreator sess a with
              | false =>
                simp only [hlat, hic, Option.isNone_none, Bool.true_and,
                  Bool.not_false, if_true] at h
                cases h
                refine ⟨?_, ?_, ?_⟩ <;>
                  simp [contentAccessGranted, hph, hpne, hv, hfile,
                    hcust, hass, hlat, hic]
              | true =>
                simp only [hlat, hic, Option.isNone_none, Bool.true_and,
                  Bool.not_true, Bool.false_eq_true, if_false] at h
                cases h
                refine ⟨?_, ?_, ?_⟩
                · simp [contentAccessGranted_serveFileOutcome, hph,
                    hpne, hv, hfile, hcust, hass, hlat, hic]
                · constructor
                  · rintro ⟨slug, e, hc⟩
                    exact absurd hc (serveFileOutcome_ne_renew f slug e)
                  · rintro ⟨phone', hp', _, _, f', hf', c', hc', a',
                      ha', p', hp'', _⟩
                    obtain rfl := Option.some.inj hp'
                    obtain rfl := Option.some.inj hf'
                    rw [hcust] at hc'
                    obtain rfl := Option.some.inj hc'
                    rw [hlat] at hp''
                    exact Option.noConfusion hp''
                · constructor
                  · intro hc
                    exact absurd hc (serveFileOutcome_ne_notFound f)
                  · rintro ⟨phone', hp', _, _, hf'⟩
                    exact Option.noConfusion hf'
            | some p =>
              simp only [hlat, Option.isNone_some, Bool.false_and,
                Bool.false_eq_true, if_false] at h
              cases hsub : a.isSubscription with
              | false =>
                simp only [hsub, Bool.false_eq_true, if_false] at h
                cases h
                refine ⟨?_, ?_, ?_⟩
                · simp [contentAccessGranted_serveFileOutcome, hph, hpne,
                    hv, hfile, hcust, hass, hlat, hsub]
                · constructor
                  · rintro ⟨slug, e, hc⟩
                    exact absurd hc (serveFileOutcome_ne_renew f slug e)
                  · rintro ⟨phone', hp', _, _, f', hf', c', hc', a', ha',
                      p', hp'', hsub', _⟩
                    obtain rfl := Option.some.inj hp'
                    obtain rfl := Option.some.inj hf'
                    rw [hcust] at hc'
                    obtain rfl := Option.some.inj hc'
                    rw [hass] at ha'
                    obtain rfl := Option.some.inj ha'
                    rw [hsub] at hsub'
                    exact Bool.noConfusion hsub'
                · constructor
                  · intro hc
                    exact absurd hc (serveFileOutcome_ne_notFound f)
                  · rintro ⟨phone', hp', _, _, hf'⟩
                    exact Option.noConfusion hf'
              | true =>
                cases hact : (check_subscription_status a p now).1 with
                | true =>
                  simp only [hsub, hact, if_true] at h
                  cases h
                  refine ⟨?_, ?_, ?_⟩
                  · simp [contentAccessGranted_serveFileOutcome, hph,
                      hpne, hv, hfile, hcust, hass, hlat, hsub, hact]
                  · constructor
                    · rintro ⟨slug, e, hc⟩
                      exact absurd hc (serveFileOutcome_ne_renew f slug e)
                    · rintro ⟨phone', hp', _, _, f', hf', c', hc', a',
                        ha', p', hp'', _, hact'⟩
                      obtain rfl := Option.some.inj hp'
                      obtain rfl := Option.some.inj hf'
                      rw [hcust] at hc'
                      obtain rfl := Option.some.inj hc'
                      rw [hass] at ha'
                      obtain rfl := Option.some.inj ha'
                      rw [hlat] at hp''
                      obtain rfl := Option.some.inj hp''
                      rw [hact] at hact'
                      exact Bool.noConfusion hact'
                  · constructor
                    · intro hc
                      exact absurd hc (serveFileOutcome_ne_notFound f)
                    · rintro ⟨phone', hp', _, _, hf'⟩
                      exact Option.noConfusion hf'
                | false =>
                  simp only [hsub, hact, Bool.false_eq_true, if_false,
                    if_true] at h
                  cases h
                  refine ⟨?_, ?_, ?_⟩
                  · simp [contentAccessGranted, hph, hpne, hv, hfile,
                      hcust, hass, hlat, hsub, hact]
                  · simp [hph, hpne, hv, hfile, hcust, hass, hlat, hsub,
                      hact]
                  · simp [hph, hpne, hv, hfile]

/-- State `sampleDb` with purchase 1 COMPLETED. -/
def dbCompleted : Db :=
  { sampleDb with purchases := [{ samplePurchase with
      status := .completed }] }

/-- Witness for C6 (amended): a verified customer with a completed
purchase is served the file. -/
theorem C6_amended_witness :
    serve_content dbCompleted sessVerifiedA 0 1
        = some (.served "lesson1.mp4")
      ∧ (contentAccessGranted (.served "lesson1.mp4") = true ↔
        (∃ phone, sessVerifiedA.customerPhone = some phone ∧ phone ≠ "" ∧
          sessVerifiedA.isVerified = true ∧
          ∃ f, dbCompleted.files.find? (fun x => x.id == 1) = some f ∧
          (∃ c, dbCompleted.customers.find? (fun x =>
              x.whatsappNumber == phone) = some c ∧
          ∃ a, dbCompleted.assets.find? (fun x => x.id == f.assetId)
              = some a ∧
          ((∃ p, latestCompletedPurchase dbCompleted c.id f.assetId
                = some p ∧
              (a.isSubscription = true →
                (check_subscription_status a p 0).1 = true)) ∨
            (latestCompletedPurchase dbCompleted c.id f.assetId = none ∧
              sessionIsCreator sessVerifiedA a = true))))) := by
  constructor
  · decide
  · exact (C6_amended dbCompleted sessVerifiedA 0 1
      (.served "lesson1.mp4") (by decide)).1

/-- C5: if the database commit of the COMPLETED transition fails, the
webhook handler rolls everything back — purchase status and asset
aggregates are exactly the pre-state — publishes nothing, and returns 500
so the gateway retries. -/
theorem C5_rollback_on_db_error :
    ∀ (req : WebhookReq) (db : Db) (sse : SseManager)
      (pl : CallbackPayload) (d : String) (p : Purchase),
      secretRejected db req = false →
      req.payload = some pl → pl.dealId = some d → d ≠ "" →
      db.purchases.find? (fun q => q.paymentGatewayRef == some d)
        = some p →
      p.status ≠ .completed →
      uza_payment_callback req db sse false
        = { httpStatus := 500, db := db, sse := sse, published := [] } := by
  intro req db sse pl d p hsec hpl hd hne hfind hst
  have hdeq : (d == "") = false := by simpa using hne
  have hsteq : (p.status == PurchaseStatus.completed) = false := by
    simpa using hst
  simp only [uza_payment_callback, hsec, hpl, hd, hdeq, hfind, hsteq,
    Bool.false_eq_true, if_false]
  cases db.assets.find? (fun a => a.id == p.assetId) <;> simp

/-- C4: the webhook answers 403 when a secret is configured for
`Creator.query.first()` and the request's secret is missing or wrong;
400 when the body carries no (truthy) deal id; 404 when no purchase
holds the gateway ref; and when no secret is configured it never
rejects with 403. -/
theorem C4_webhook_error_codes :
    (∀ (req : WebhookReq) (db : Db) (sse : SseManager) (co : Bool)
        (c : CreatorRec) (sec : String),
      db.creators.head? = some c → c.uzaSecret = some sec → sec ≠ "" →
      (∀ inc, req.secretParam = some inc → inc ≠ sec) →
      uza_payment_callback req db sse co
        = { httpStatus := 403, db := db, sse := sse, published := [] }) ∧
    (∀ (req : WebhookReq) (db : Db) (sse : SseManager) (co : Bool),
      secretRejected db req = false →
      (req.payload = none ∨ ∃ pl, req.payload = some pl ∧
        (pl.dealId = none ∨ pl.dealId = some "")) →
      uza_payment_callback req db sse co
        = { httpStatus := 400, db := db, sse := sse, published := [] }) ∧
    (∀ (req : WebhookReq) (db : Db) (sse : SseManager) (co : Bool)
        (pl : CallbackPayload) (d : String),
      secretRejected db req = false →
      req.payload = some pl → pl.dealId = some d → d ≠ "" →
      db.purchases.find? (fun p => p.paymentGatewayRef == some d)
        = none →
      uza_payment_callback req db sse co
        = { httpStatus := 404, db := db, sse := sse, published := [] }) ∧
    (∀ (req : WebhookReq) (db : Db) (sse : SseManager) (co : Bool),
      (db.creators.head? = none ∨ ∃ c, db.creators.head? = some c ∧
        (c.uzaSecret = none ∨ c.uzaSecret = some "")) →
      (uza_payment_callback req db sse co).httpStatus ≠ 403) := by
  refine ⟨?_, ?_, ?_, ?_⟩
  · intro req db sse co c sec hc hcs hne hmis
    have hrej : secretRejected db req = true := by
      simp only [secretRejected, hc, hcs]
      have hsecne : (sec == "") = false := by
        simp only [beq_eq_false_iff_ne, ne_eq]
        intro hcontra
        exact hne hcontra
      simp only [hsecne, Bool.false_eq_true, if_false]
      cases hsp : req.secretParam with
      | none => rfl
      | some inc =>
        have := hmis inc hsp
        simp [this]
    simp [uza_payment_callback, hrej]
  · intro req db sse co hsec hbad
    rcases hbad with hbad | ⟨pl, hpl, hbad | hbad⟩
    · simp [uza_payment_callback, hsec, hbad]
    · simp [uza_payment_callback, hsec, hpl, hbad]
    · simp [uza_payment_callback, hsec, hpl, hbad]
  · intro req db sse co pl d hsec hpl hd hne hfind
    have hde : (d == "") = false := by simpa using hne
    simp [uza_payment_callback, hsec, hpl, hd, hde, hfind]
  · intro req db sse co h
    have hrej : secretRejected db req = false := by
      rcases h with h | ⟨c, hc, hcs | hcs⟩
      · simp [secretRejected, h]
      · simp [secretRejected, hc, hcs]
      · simp [secretRejected, hc, hcs]
    simp only [uza_payment_callback, hrej, Bool.false_eq_true, if_false]
    repeat' split
    all_goals simp

/-- A creator with a configured webhook secret, and a database using it. -/
def secretCreator : CreatorRec :=
  { id := 7, uzaPk := some "pk-live", uzaSecret := some "s3cret" }

def dbWithSecret : Db := { sampleDb with creators := [secretCreator] }

/-- Witness for C4: each of the four response behaviours at a concrete
state. -/
theorem C4_webhook_error_codes_witness :
    (dbWithSecret.creators.head? = some secretCreator ∧
      uza_payment_callback
        { secretParam := some "wrong", payload := some { dealId := some "X" } }
        dbWithSecret sampleSse true
        = { httpStatus := 403, db := dbWithSecret, sse := sampleSse,
            published := [] }) ∧
    (uza_payment_callback { secretParam := none, payload := none }
        sampleDb sampleSse true
      = { httpStatus := 400, db := sampleDb, sse := sampleSse,
          published := [] }) ∧
    (uza_payment_callback
        { secretParam := none, payload := some { dealId := some "Y" } }
        sampleDb sampleSse true
      = { httpStatus := 404, db := sampleDb, sse := sampleSse,
          published := [] }) ∧
    (uza_payment_callback sampleWebhookReq sampleDb sampleSse
        true).httpStatus ≠ 403 :=
  ⟨⟨by decide,
    C4_webhook_error_codes.1
      { secretParam := some "wrong", payload := some { dealId := some "X" } }
      dbWithSecret sampleSse true secretCreator "s3cret" (by decide) rfl
      (by decide) (by intro inc hinc; cases hinc; decide)⟩,
   C4_webhook_error_codes.2.1 { secretParam := none, payload := none }
     sampleDb sampleSse true (by decide) (Or.inl rfl),
   C4_webhook_error_codes.2.2.1
     { secretParam := none, payload := some { dealId := some "Y" } }
     sampleDb sampleSse true { dealId := some "Y" } "Y" (by decide) rfl
     rfl (by decide) (by decide),
   C4_webhook_error_codes.2.2.2 sampleWebhookReq sampleDb sampleSse true
     (Or.inr ⟨sampleCreator, rfl, Or.inl rfl⟩)⟩

/-- C3 (amended): no gateway-ref uniqueness is enforced — when the
gateway returns a deal id already held by an existing purchase,
`initiate_payment` still succeeds (HTTP 200, no conflict error), the
existing holder is untouched, and the freshly created purchase becomes a
second holder of the same ref. -/
theorem C3_amended :
    ∀ (db : Db) (sess : Session) (now : Nat) (req : InitiateReq)
      (aid : Nat) (cid : String) (asset : DigitalAsset)
      (creator : CreatorRec) (d : String) (p : Purchase),
      req.assetId = some aid → aid ≠ 0 →
      req.channelId = some cid → cid ≠ "" →
      pyStrip req.phoneNumber ≠ "" →
      db.assets.find? (fun a => a.id == aid) = some asset →
      db.creators.find? (fun c => c.id == asset.creatorId)
        = some creator →
      truthyStr creator.uzaPk = true →
      p ∈ db.purchases → p.paymentGatewayRef = some d → d ≠ "" →
      p.id ≠ db.nextPurchaseId →
      ∃ r, initiate_payment db sess now req (some d) = some r ∧
        r.httpStatus = 200 ∧ r.success = true ∧
        p ∈ r.db.purchases ∧
        ∃ q ∈ r.db.purchases, q.id = db.nextPurchaseId ∧ q.id ≠ p.id ∧
          q.paymentGatewayRef = some d := by
  intro db sess now req aid cid asset creator d p haid haidne hcid hcidne
    hphone hasset hcreator hpk hp href hdne hpid
  have h1 : (pyStrip req.phoneNumber == "") = false := by simpa using hphone
  have h2 : (aid == 0) = false := by simpa using haidne
  have h3 : (cid == "") = false := by simpa using hcidne
  have h4 : (d == "") = false := by simpa using hdne
  simp only [initiate_payment, haid, hcid, h1, h2, h3, h4,
    Bool.or_self, Bool.or_false, Bool.false_or, Bool.false_eq_true,
    if_false, hasset, findOrCreateCustomer_purchases,
    findOrCreateCustomer_nextPurchaseId, findOrCreateCustomer_assets,
    findOrCreateCustomer_creators, hcreator, hpk, Bool.not_true]
  refine ⟨_, rfl, rfl, rfl, ?_, ?_⟩
  · refine List.mem_map.mpr ⟨p, List.mem_append_left _ hp, ?_⟩
    have : (p.id == db.nextPurchaseId) = false := by simpa using hpid
    simp [this]
  · refine ⟨_, List.mem_map.mpr
      ⟨_, List.mem_append_right _ (List.mem_singleton.mpr rfl), rfl⟩,
      ?_, ?_, ?_⟩
    · simp
    · simpa using fun hcontra => hpid hcontra.symm
    · simp

/-- Witness for C3 (amended) on `sampleDb`, whose purchase 1 already
holds ref "X". -/
theorem C3_amended_witness :
    (sampleDb.assets.find? (fun a => a.id == 1) = some sampleAsset ∧
      sampleDb.creators.find? (fun c => c.id == sampleAsset.creatorId)
        = some sampleCreator ∧
      samplePurchase ∈ sampleDb.purchases ∧
      samplePurchase.paymentGatewayRef = some "X") ∧
    (∃ r, initiate_payment sampleDb sess0 1000
        { phoneNumber := "255700000003", assetId := some 1,
          channelId := some "chan3", tier := none } (some "X") = some r ∧
      r.httpStatus = 200 ∧ r.success = true ∧
      samplePurchase ∈ r.db.purchases ∧
      ∃ q ∈ r.db.purchases, q.id = sampleDb.nextPurchaseId ∧
        q.id ≠ samplePurchase.id ∧ q.paymentGatewayRef = some "X") :=
  ⟨⟨by decide, by decide, by decide, rfl⟩,
   C3_amended sampleDb sess0 1000
     { phoneNumber := "255700000003", assetId := some 1,
       channelId := some "chan3", tier := none } 1 "chan3" sampleAsset
     sampleCreator "X" samplePurchase rfl (by decide) rfl (by decide)
     (by decide) (by decide) (by decide) (by decide) (by decide) rfl
     (by decide) (by decide)⟩

/-- Witness for C5 at a concrete state. -/
theorem C5_rollback_on_db_error_witness :
    secretRejected sampleDb sampleWebhookReq = false ∧
    sampleWebhookReq.payload = some { dealId := some "X" } ∧
    (some "X" : Option String) = some "X" ∧ "X" ≠ "" ∧
    sampleDb.purchases.find? (fun q => q.paymentGatewayRef == some "X")
      = some samplePurchase ∧
    samplePurchase.status ≠ .completed ∧
    uza_payment_callback sampleWebhookReq sampleDb sampleSse false
      = { httpStatus := 500, db := sampleDb, sse := sampleSse,
          published := [] } :=
  ⟨by decide, by decide, rfl, by decide, by decide, by decide,
   C5_rollback_on_db_error sampleWebhookReq sampleDb sampleSse
     { dealId := some "X" } "X" samplePurchase (by decide) (by decide) rfl
     (by decide) (by decide) (by decide)⟩

end Nyota
